import Mathlib

/-!
Verification development for the railtemp transient rail-temperature solver.

The Python source is shallowly embedded:
* exact rail/material/weather scalars are modelled over `ℚ` (Python floats
  carry exact decimal literals here; all arithmetic in the solver is
  elementary field arithmetic),
* timestamps are epoch seconds over `ℤ`,
* the solar geometry (`utils.project_point`, `shadowArea_sunArea`, the legacy
  `shadowArea_sunArea_oringal_CNU`) is embedded over `ℝ` because it uses
  trigonometric functions,
* Python exceptions become `Option`/`Except` failures,
* the process-global random stream (`random` / `numpy.random`) is an explicit
  draw function `gen : ℕ → ℚ` together with a cursor `r : ℕ` threaded through
  every operation that may draw,
* external collaborators (scipy's Newton root finder, scipy's ConvexHull
  area) are oracle parameters (`root`, `hullArea`).
-/

/-! ## ParameterValue model (src/railtemp/ParameterValue.py) -/

/-- The three resampling policies of `RandomParameterMode`. -/
inductive PVMode where
  | VARIABLE
  | FIXED_GLOBAL
  | FIXED_PER_RUN
deriving DecidableEq, Repr

/-- Runtime state of one parameter-value object.  `const v` is a
`ConstantParameterValue` (this is also what a `RandomParameterValue` becomes
after `set_mode(FIXED_GLOBAL)` rewrites `__class__` and `__dict__`);
`random mode initValue` is a live `RandomParameterValue` with its
current mode and cached `init_value`. -/
inductive PVState where
  | const (value : ℚ)
  | random (mode : PVMode) (initValue : ℚ)
deriving DecidableEq, Repr

/-- `ParameterValue.get_value`.  On a constant it returns the stored value.
On a random value: if the mode is not `VARIABLE` it returns the cached
`init_value` without drawing; otherwise it draws `gen r`, validates it with
the distribution's `validate` (`none` = `ValueError`), and advances the
global random cursor. -/
def pv_get_value (gen : ℕ → ℚ) (valid : ℚ → Bool) :
    PVState → ℕ → Option (ℚ × PVState × ℕ)
  | PVState.const v, r => some (v, PVState.const v, r)
  | PVState.random m iv, r =>
      if m = PVMode.VARIABLE then
        let v := gen r
        if valid v then some (v, PVState.random m iv, r + 1) else none
      else
        some (iv, PVState.random m iv, r)

/-- `RandomParameterValue.reinit` on a live random value with mode `m`,
cached value `iv`, at random cursor `r`: draws and validates a new frozen
value only when `m = FIXED_PER_RUN`, otherwise returns the object
unchanged. -/
def pv_reinit (gen : ℕ → ℚ) (valid : ℚ → Bool) (m : PVMode) (iv : ℚ)
    (r : ℕ) : Option (PVState × ℕ) :=
  if m = PVMode.FIXED_PER_RUN then
    let v := gen r
    if valid v then some (PVState.random m v, r + 1) else none
  else
    some (PVState.random m iv, r)

/-- The guarded reinitialization performed by `Rail.reinit_parametervalues`
and `RailMaterial.reinit_parametervalues`: `reinit()` is called only when
`isinstance(value, RandomParameterValue)`, so a converted constant is left
untouched. -/
def pv_reinit_if_random (gen : ℕ → ℚ) (valid : ℚ → Bool) :
    PVState → ℕ → Option (PVState × ℕ)
  | PVState.const v, r => some (PVState.const v, r)
  | PVState.random m iv, r => pv_reinit gen valid m iv r

/-- `RandomParameterValue.set_mode` on a live random value whose current
mode is `mode` and cached value is `iv`.  Setting `FIXED_GLOBAL` freezes
`self.get_value()` (evaluated under the *current* mode) into a
`ConstantParameterValue` and rewrites the instance in place; any other
mode is merely stored. -/
def pv_set_mode (gen : ℕ → ℚ) (valid : ℚ → Bool) (newMode : PVMode)
    (mode : PVMode) (iv : ℚ) (r : ℕ) : Option (PVState × ℕ) :=
  if newMode = PVMode.FIXED_GLOBAL then
    match pv_get_value gen valid (PVState.random mode iv) r with
    | some (v, _, r1) => some (PVState.const v, r1)
    | none => none
  else
    some (PVState.random newMode iv, r)

/-- `parameter_value_factory` on a raw numeric input wraps it in a
`ConstantParameterValue`. -/
def parameter_value_factory (v : ℚ) : PVState := PVState.const v

/-! ## Energy-balance equation set (src/railtemp/utils.py) -/

/-- `scipy.constants.Stefan_Boltzmann` (5.670374419e-8). -/
def sigmaSB : ℚ := 5.670374419e-8

/-- `utils.Af`: incoming-energy term `SA*As*SR`. -/
def Af (SA As SR : ℚ) : ℚ := SA * As * SR

/-- `utils.Cf`: convection term `hc*Ac*(Trail-Tamb)`. -/
def Cf (hc Ac Trail Tamb : ℚ) : ℚ := hc * Ac * (Trail - Tamb)

/-- `utils.Ef`: emitted-radiation term `Er*Sig*Ar*(Trail^4 - Tamb^4)`. -/
def Ef (Ar Trail Tamb Er : ℚ) : ℚ := Er * sigmaSB * Ar * (Trail ^ 4 - Tamb ^ 4)

/-- `utils.Kf`: thermal-mass term `pho*Cr(Trail)*Vr`, where `Cr` is the
material's specific-heat function. -/
def Kf (pho : ℚ) (Crf : ℚ → ℚ) (Trail Vr : ℚ) : ℚ := pho * Crf Trail * Vr

/-- `utils.Cr`: EN1993-1-2 specific heat of steel, argument in Celsius,
clamped below 20 °C to its value at 20 °C. -/
def Cr (t : ℚ) : ℚ :=
  if 20 ≤ t then
    (425 + 0.773 * t) - (1.69e-3 * t ^ 2) + (2.22e-6 * t ^ 3)
  else
    (425 + 0.773 * 20) - (1.69e-3 * (20 : ℚ) ^ 2) + (2.22e-6 * (20 : ℚ) ^ 3)

/-! ## Transient solver (src/railtemp/railtemp.py, CNU) -/

/-- One row of the working dataframe as consumed by `CNU.__solve` at index
`i ≥ 1`: its elapsed-time entry, sun-facing area, solar radiation,
convection coefficient and ambient temperature (already in Kelvin). -/
structure SolveRow where
  Delta_time : ℚ
  As : ℚ
  SR : ℚ
  Hconv : ℚ
  Tamb : ℚ
deriving DecidableEq, Repr

/-- The realized physical parameter values read from the rail at one solver
iteration (lines 495–503 of railtemp.py): absorptivity, convection area,
radiation area, resulting emissivity `Er = Er_material * Er_ambient`,
density, specific-heat function, and volume. -/
structure RailParams where
  solar_absort : ℚ
  Ac : ℚ
  Ar : ℚ
  Er : ℚ
  pho : ℚ
  Crf : ℚ → ℚ
  Vr : ℚ

/-- The residual closure `find_Trail_i` defined inside `CNU.__solve`:
`A`, `C`, `E` are evaluated at the candidate temperature `Tr_i` in Kelvin,
`K` at `Tr_i - 273.15` (Celsius), and the residual is
`Delta_time * (1/K) * (A - C - E) + Tr_simu[i-1] - Tr_i`. -/
def find_Trail_i (p : RailParams) (row : SolveRow) (prev : ℚ) (Tr_i : ℚ) : ℚ :=
  let A := Af p.solar_absort row.As row.SR
  let C := Cf row.Hconv p.Ac Tr_i row.Tamb
  let E := Ef p.Ar Tr_i row.Tamb p.Er
  let K := Kf p.pho p.Crf (Tr_i - 273.15) p.Vr
  let fres := (1 / K) * (A - C - E)
  ((row.Delta_time * fres) + prev) - Tr_i

/-- The loop of `CNU.__solve` from dataframe index `i` on.  `ps i` is the
realized rail-parameter record read at iteration `i` (a `VARIABLE` parameter
may differ between iterations), `rows` the remaining dataframe rows, `prev`
the previously solved temperature `Tr_simu[i-1]`.  `root` is the
`scipy.optimize.newton` oracle: `none` models the `RuntimeError` raised on
non-convergence, which `__solve` rethrows as an exception naming index `i`
(modelled by `Except.error i`); the root-find is invoked exactly once per
index, with no retry. -/
def solveFrom (root : (ℚ → ℚ) → Option ℚ) (ps : ℕ → RailParams) :
    List SolveRow → ℚ → ℕ → Except ℕ (List ℚ)
  | [], _, _ => Except.ok []
  | row :: rest, prev, i =>
      match root (find_Trail_i (ps i) row prev) with
      | none => Except.error i
      | some T =>
          match solveFrom root ps rest T (i + 1) with
          | Except.ok l => Except.ok (T :: l)
          | Except.error e => Except.error e

/-! ## Delta-time columns (CNU.__create_delta_time_columns) -/

/-- Tail of the `Delta_time` column: each entry is
`(t_i - t_(i-1)).seconds`, the seconds *component* of the Python timedelta,
i.e. the elapsed seconds floor-reduced modulo 86400. -/
def delta_time_aux (prev : ℤ) : List ℤ → List ℤ
  | [] => []
  | t :: rest => (t - prev) % 86400 :: delta_time_aux t rest

/-- The whole `Delta_time` column: `0` at row 0, then
`(t_i - t_(i-1)).seconds` for each subsequent row. -/
def create_delta_time (ts : List ℤ) : List ℤ :=
  match ts with
  | [] => []
  | t0 :: rest => 0 :: delta_time_aux t0 rest

/-- Number of distinct values of a column (`pandas.Series.unique` length). -/
def distinct_count (l : List ℤ) : ℕ := l.dedup.length

/-- Result of `CNU.__create_delta_time_columns`: the computed column plus
whether the irregular-spacing warning (`warnings.warn`, non-fatal) fired. -/
structure DeltaResult where
  delta : List ℤ
  warned : Bool
deriving DecidableEq, Repr

/-- `CNU.__create_delta_time_columns`: computes `Delta_time` and warns
(without raising) when the column holds more than two distinct values. -/
def create_delta_time_columns (ts : List ℤ) : DeltaResult :=
  { delta := create_delta_time ts
    warned := decide (2 < distinct_count (create_delta_time ts)) }

/-! ## The CNU run pipeline -/

/-- One row of the raw weather dataframe (`WeatherData.df`): epoch-seconds
timestamp and the `SR`, `Tamb` (Celsius), `Wv` columns. -/
structure WRow where
  t : ℤ
  SR : ℚ
  Tamb : ℚ
  Wv : ℚ
deriving DecidableEq, Repr

/-- Assemble the `SolveRow`s for indices `1..n-1` from the Kelvin-converted
weather rows, the per-row `Hconv` and `As` columns and the `Delta_time`
column (all four lists aligned from index 1 on). -/
def buildRows : List WRow → List ℚ → List ℚ → List ℤ → List SolveRow
  | w :: ws, h :: hs, a :: as_, d :: ds =>
      { Delta_time := (d : ℚ), As := a, SR := w.SR, Hconv := h,
        Tamb := w.Tamb + 273.15 } :: buildRows ws hs as_ ds
  | _, _, _, _ => []

/-- Outcome of `CNU.run`: the final `Tr_simu` trace in Celsius (or the index
of the failed root-find) plus the delta-time warning flag. -/
structure CNURunResult where
  trace : Except ℕ (List ℚ)
  warned : Bool

/-- The `Tr_simu` trace computation of `CNU.run`: seed
`Tr_simu[0] = Trail_initial + 273.15` (`__initial_conditions`), solve rows
`1..n-1` (`__solve`), then convert every entry back with `- 273.15`
(`__kelvin_to_celsius`).  `hconvF` and `asF` supply the `Hconv` and `As`
columns for rows `1..n-1` (computed upstream by `__calculate_hconv` and
`__calculate_As`). -/
def cnu_trace (root : (ℚ → ℚ) → Option ℚ) (ps : ℕ → RailParams)
    (w : List WRow) (hconvCol asCol : List ℚ) (Trail_initial : ℚ) :
    Except ℕ (List ℚ) :=
  let delta := create_delta_time (w.map (fun r => r.t))
  let rows := buildRows w.tail hconvCol asCol delta.tail
  match solveFrom root ps rows (Trail_initial + 273.15) 1 with
  | Except.ok tail =>
      Except.ok (((Trail_initial + 273.15) :: tail).map (fun T => T - 273.15))
  | Except.error e => Except.error e

/-- `CNU.run`: the full pipeline result; the irregular-timestep warning is
recorded but the solve proceeds regardless of it. -/
def cnu_run (root : (ℚ → ℚ) → Option ℚ) (ps : ℕ → RailParams)
    (w : List WRow) (hconvCol asCol : List ℚ) (Trail_initial : ℚ) :
    CNURunResult :=
  { trace := cnu_trace root ps w hconvCol asCol Trail_initial
    warned := (create_delta_time_columns (w.map (fun r => r.t))).warned }

/-! ## SimuRun (src/railtemp/Montecarlo.py) -/

/-- `SimuRunStatus`. -/
inductive SimuRunStatus where
  | NOT_STARTED
  | COMPLETED
  | FAILED
deriving DecidableEq, Repr

/-- Observable outcome of `SimuRun.run`: final status, whether `end_time`
was recorded, and the propagated result (`Except.error i` models the
rethrown `RuntimeError` wrapping the failing-index message). -/
structure SimuRunOutcome where
  status : SimuRunStatus
  endTimeSet : Bool
  propagated : Except ℕ (List ℚ)

/-- `SimuRun.run` around a finished solver call: on success the status is
set to `COMPLETED` and `end_time` recorded; on an exception the status is
set to `FAILED`, `end_time` recorded, and the error re-raised (never
swallowed). -/
def simuRun_run (solveResult : Except ℕ (List ℚ)) : SimuRunOutcome :=
  match solveResult with
  | Except.ok t => { status := SimuRunStatus.COMPLETED, endTimeSet := true,
                     propagated := Except.ok t }
  | Except.error i => { status := SimuRunStatus.FAILED, endTimeSet := true,
                        propagated := Except.error i }

/-- `SimuRun.run`'s choice of initial temperature: the `Trail_initial`
argument when given, else the weather series' first ambient temperature
(`weather.Tamb.iloc[0]`, still in Celsius). -/
def simuRun_initial (Trail_initial : Option ℚ) (TambFirst : ℚ) : ℚ :=
  Trail_initial.getD TambFirst

/-! ## RailMaterial and Rail (src/railtemp/railtemp.py) -/

/-- The parameter-value slots of a `RailMaterial`. -/
structure MaterialPV where
  density : PVState
  solar_absort : PVState
  emissivity : PVState
deriving DecidableEq, Repr

/-- The parameter-value slots of a `Rail` (the specific-heat function lives
on the material and is handled separately as a plain function). -/
structure RailPV where
  azimuth : PVState
  lat : PVState
  long : PVState
  elev : PVState
  cross_area : PVState
  convection_area : PVState
  radiation_area : PVState
  ambient_emissivity : PVState
  volume : PVState
  material : MaterialPV
deriving DecidableEq, Repr

/-- `Rail.__init__` on plain numeric inputs: every argument goes through
`parameter_value_factory`; there is no volume argument — `_volume` is built
from the `cross_area` argument (a 1-meter rail length is assumed). -/
def rail_init (azimuth lat long elev cross_area convection_area
    radiation_area ambient_emissivity : ℚ) (material : MaterialPV) : RailPV :=
  { azimuth := parameter_value_factory azimuth
    lat := parameter_value_factory lat
    long := parameter_value_factory long
    elev := parameter_value_factory elev
    cross_area := parameter_value_factory cross_area
    convection_area := parameter_value_factory convection_area
    radiation_area := parameter_value_factory radiation_area
    ambient_emissivity := parameter_value_factory ambient_emissivity
    volume := parameter_value_factory cross_area
    material := material }

/-- A property read `self._x.get_value()` followed by the property's range
validation; `none` models the raised `ValueError`. -/
def prop_read (gen : ℕ → ℚ) (valid : ℚ → Bool) (s : PVState) (r : ℕ)
    (check : ℚ → Bool) : Option (ℚ × ℕ) :=
  match pv_get_value gen valid s r with
  | some (v, _, r1) => if check v then some (v, r1) else none
  | none => none

/-- `Rail.cross_area`: raises `ValueError` unless the read value is
strictly positive. -/
def rail_cross_area (gen : ℕ → ℚ) (valid : ℚ → Bool) (rp : RailPV) (r : ℕ) :
    Option (ℚ × ℕ) :=
  prop_read gen valid rp.cross_area r (fun v => decide (0 < v))

/-- `Rail.volume`: raises `ValueError` unless the read value is strictly
positive. -/
def rail_volume (gen : ℕ → ℚ) (valid : ℚ → Bool) (rp : RailPV) (r : ℕ) :
    Option (ℚ × ℕ) :=
  prop_read gen valid rp.volume r (fun v => decide (0 < v))

/-- `Rail.convection_area` (strictly positive). -/
def rail_convection_area (gen : ℕ → ℚ) (valid : ℚ → Bool) (rp : RailPV)
    (r : ℕ) : Option (ℚ × ℕ) :=
  prop_read gen valid rp.convection_area r (fun v => decide (0 < v))

/-- `Rail.radiation_area` (strictly positive). -/
def rail_radiation_area (gen : ℕ → ℚ) (valid : ℚ → Bool) (rp : RailPV)
    (r : ℕ) : Option (ℚ × ℕ) :=
  prop_read gen valid rp.radiation_area r (fun v => decide (0 < v))

/-- `Rail.ambient_emissivity` (between 0 and 1 inclusive). -/
def rail_ambient_emissivity (gen : ℕ → ℚ) (valid : ℚ → Bool) (rp : RailPV)
    (r : ℕ) : Option (ℚ × ℕ) :=
  prop_read gen valid rp.ambient_emissivity r
    (fun v => decide (0 ≤ v ∧ v ≤ 1))

/-- `RailMaterial.density` (strictly positive). -/
def material_density (gen : ℕ → ℚ) (valid : ℚ → Bool) (m : MaterialPV)
    (r : ℕ) : Option (ℚ × ℕ) :=
  prop_read gen valid m.density r (fun v => decide (0 < v))

/-- `RailMaterial.solar_absort` (in `(0, 1]`). -/
def material_solar_absort (gen : ℕ → ℚ) (valid : ℚ → Bool) (m : MaterialPV)
    (r : ℕ) : Option (ℚ × ℕ) :=
  prop_read gen valid m.solar_absort r (fun v => decide (0 < v ∧ v ≤ 1))

/-- `RailMaterial.emissivity` (in `(0, 1]`). -/
def material_emissivity (gen : ℕ → ℚ) (valid : ℚ → Bool) (m : MaterialPV)
    (r : ℕ) : Option (ℚ × ℕ) :=
  prop_read gen valid m.emissivity r (fun v => decide (0 < v ∧ v ≤ 1))

/-- The property reads performed at the top of each `CNU.__solve`
iteration (railtemp.py lines 495–503), in source order, producing the
realized `RailParams` for that iteration.  `Crf` is the material's
specific-heat function. -/
def cnu_read_params (gen : ℕ → ℚ) (valid : ℚ → Bool) (rp : RailPV)
    (Crf : ℚ → ℚ) (r : ℕ) : Option (RailParams × ℕ) :=
  match material_solar_absort gen valid rp.material r with
  | none => none
  | some (sa, r1) =>
    match rail_convection_area gen valid rp r1 with
    | none => none
    | some (ac, r2) =>
      match rail_radiation_area gen valid rp r2 with
      | none => none
      | some (ar, r3) =>
        match material_emissivity gen valid rp.material r3 with
        | none => none
        | some (em, r4) =>
          match rail_ambient_emissivity gen valid rp r4 with
          | none => none
          | some (ea, r5) =>
            match material_density gen valid rp.material r5 with
            | none => none
            | some (ph, r6) =>
              match rail_volume gen valid rp r6 with
              | none => none
              | some (vr, r7) =>
                some ({ solar_absort := sa, Ac := ac, Ar := ar,
                        Er := em * ea, pho := ph, Crf := Crf, Vr := vr }, r7)

/-- `RailMaterial.reinit_parametervalues`: guarded `reinit()` on
`_density`, `_solar_absort`, `_emissivity`, in that order. -/
def material_reinit (gen : ℕ → ℚ) (valid : ℚ → Bool) (m : MaterialPV)
    (r : ℕ) : Option (MaterialPV × ℕ) :=
  match pv_reinit_if_random gen valid m.density r with
  | none => none
  | some (d, r1) =>
    match pv_reinit_if_random gen valid m.solar_absort r1 with
    | none => none
    | some (sa, r2) =>
      match pv_reinit_if_random gen valid m.emissivity r2 with
      | none => none
      | some (em, r3) =>
        some ({ density := d, solar_absort := sa, emissivity := em }, r3)

/-- `Rail.reinit_parametervalues`: guarded `reinit()` on `_azimuth`,
`_cross_area`, `_convection_area`, `_radiation_area`,
`_ambient_emissivity`, `_volume`, then the `_position` entries
(`lat`, `long`, `elev`), in source order.  The material is *not* touched
here (the Monte Carlo driver reinitializes it separately). -/
def rail_reinit (gen : ℕ → ℚ) (valid : ℚ → Bool) (rp : RailPV) (r : ℕ) :
    Option (RailPV × ℕ) :=
  match pv_reinit_if_random gen valid rp.azimuth r with
  | none => none
  | some (az, r1) =>
    match pv_reinit_if_random gen valid rp.cross_area r1 with
    | none => none
    | some (ca, r2) =>
      match pv_reinit_if_random gen valid rp.convection_area r2 with
      | none => none
      | some (cva, r3) =>
        match pv_reinit_if_random gen valid rp.radiation_area r3 with
        | none => none
        | some (ra, r4) =>
          match pv_reinit_if_random gen valid rp.ambient_emissivity r4 with
          | none => none
          | some (ae, r5) =>
            match pv_reinit_if_random gen valid rp.volume r5 with
            | none => none
            | some (vo, r6) =>
              match pv_reinit_if_random gen valid rp.lat r6 with
              | none => none
              | some (la, r7) =>
                match pv_reinit_if_random gen valid rp.long r7 with
                | none => none
                | some (lo, r8) =>
                  match pv_reinit_if_random gen valid rp.elev r8 with
                  | none => none
                  | some (el, r9) =>
                    some ({ azimuth := az
                            lat := la
                            long := lo
                            elev := el
                            cross_area := ca
                            convection_area := cva
                            radiation_area := ra
                            ambient_emissivity := ae
                            volume := vo
                            material := rp.material }, r9)

/-! ## Monte Carlo campaign driver (Montecarlo.generate_simulation_objects) -/

/-- The body of one yield of `generate_simulation_objects`: deep-copy the
rail template (value semantics: the copy starts as the template itself),
call `reinit_parametervalues` on the rail copy and then on its material,
and hand the result to `CNU`/`SimuRun`. -/
def mc_prepare_rail (gen : ℕ → ℚ) (valid : ℚ → Bool) (tmpl : RailPV)
    (r : ℕ) : Option (RailPV × ℕ) :=
  match rail_reinit gen valid tmpl r with
  | none => none
  | some (rc, r1) =>
    match material_reinit gen valid rc.material r1 with
    | none => none
    | some (m, r2) => some ({ rc with material := m }, r2)

/-- The inner `for _ in range(self.num_variations)` loop for one weather
source `w`: yields `V` pairs `(w, prepared rail)`, threading the global
random cursor. -/
def mc_variations {W : Type} (gen : ℕ → ℚ) (valid : ℚ → Bool)
    (tmpl : RailPV) (w : W) : ℕ → ℕ → Option (List (W × RailPV) × ℕ)
  | 0, r => some ([], r)
  | Nat.succ v, r =>
      match mc_prepare_rail gen valid tmpl r with
      | none => none
      | some (rc, r1) =>
        match mc_variations gen valid tmpl w v r1 with
        | none => none
        | some (rest, r2) => some ((w, rc) :: rest, r2)

/-- `Montecarlo.generate_simulation_objects`: the outer loop over the
weather sources, yielding `|sources| * V` prepared runs in order. -/
def generate_simulation_objects {W : Type} (gen : ℕ → ℚ) (valid : ℚ → Bool)
    (tmpl : RailPV) (V : ℕ) :
    List W → ℕ → Option (List (W × RailPV) × ℕ)
  | [], r => some ([], r)
  | w :: ws, r =>
      match mc_variations gen valid tmpl w V r with
      | none => none
      | some (first, r1) =>
        match generate_simulation_objects gen valid tmpl V ws r1 with
        | none => none
        | some (rest, r2) => some (first ++ rest, r2)

/-! ## Shadow/sun area engine (src/railtemp/utils.py), over ℝ -/

section Geometry

open scoped Classical

/-- `math.radians`. -/
noncomputable def radians (x : ℝ) : ℝ := x * Real.pi / 180

/-- `utils.project_point`: oblique projection of a spatial point onto the
XY plane along the sun ray.  The code divides by `tan(elev)` with no guard;
`none` models the `ZeroDivisionError` Python raises when `tan(elev)` is
exactly zero. -/
noncomputable def project_point (x y z azi elev : ℝ) : Option (ℝ × ℝ) :=
  let a := radians azi
  let e := radians elev
  if Real.tan e = 0 then none
  else some (-(Real.sin a / Real.tan e) * z + x, -(Real.cos a / Real.tan e) * z + y)

/-- One row of a rail-profile dataframe: the loaded `X`, `Y`, `Z` columns
plus the `xp`, `yp`, `angle` columns that the geometry engine may add in
place (`none` = column absent). -/
structure DFRow where
  X : ℝ
  Y : ℝ
  Z : ℝ
  xp : Option ℝ
  yp : Option ℝ
  angle : Option ℝ

/-- A freshly loaded profile row: only `X`, `Y`, `Z` are present. -/
def mkProfileRow (x y z : ℝ) : DFRow :=
  { X := x, Y := y, Z := z, xp := none, yp := none, angle := none }

/-- The pair of `coord['xp'] = ...` / `coord['yp'] = ...` assignments:
every row of the input dataframe gains the projected coordinates (the
Python code mutates `input_df` itself).  Fails if any projection fails. -/
noncomputable def projectRows (azi elev : ℝ) :
    List DFRow → Option (List DFRow)
  | [] => some []
  | row :: rest =>
      match project_point row.X row.Y row.Z azi elev with
      | none => none
      | some (px, py) =>
        match projectRows azi elev rest with
        | none => none
        | some rest1 =>
            some ({ row with xp := some px, yp := some py } :: rest1)

/-- `utils.shadowArea_sunArea`.  `hullArea` is the scipy `ConvexHull`
area oracle.  Returns the post-call state of the profile dataframe
(which the function mutated in place) together with
`[shadowArea, sunArea]`. -/
noncomputable def shadowArea_sunArea (hullArea : List (ℝ × ℝ) → ℝ)
    (input_df : List DFRow) (sunAzimuth sunElevation railAzimuth : ℝ) :
    Option (List DFRow × ℝ × ℝ) :=
  let eqAzimtuth := sunAzimuth - railAzimuth
  match projectRows eqAzimtuth sunElevation input_df with
  | none => none
  | some coord =>
      let points := coord.map (fun row => (row.xp.getD 0, row.yp.getD 0))
      let shadowArea := hullArea points
      some (coord, shadowArea, shadowArea * Real.sin (radians sunElevation))

/-- `math.atan2`. -/
noncomputable def atan2 (y x : ℝ) : ℝ :=
  if 0 < x then Real.arctan (y / x)
  else if x < 0 ∧ 0 ≤ y then Real.arctan (y / x) + Real.pi
  else if x < 0 ∧ y < 0 then Real.arctan (y / x) - Real.pi
  else if x = 0 ∧ 0 < y then Real.pi / 2
  else if x = 0 ∧ y < 0 then -(Real.pi / 2)
  else 0

/-- `utils.angle`: angle from the centre of mass to a point. -/
noncomputable def angleFn (x_cm y_cm x y : ℝ) : ℝ :=
  atan2 (y - y_cm) (x - x_cm)

/-- Mean of a list of reals (`pandas.Series.mean`). -/
noncomputable def listMean (l : List ℝ) : ℝ := l.sum / l.length

/-- One shoelace accumulation step over consecutive point pairs. -/
noncomputable def shoelaceSum : List (ℝ × ℝ) → ℝ
  | [] => 0
  | [_] => 0
  | (x0, y0) :: (x1, y1) :: rest =>
      (x0 * y1 - x1 * y0) + shoelaceSum ((x1, y1) :: rest)

/-- `utils.evaluate_CNU_original_area`: shoelace area of the point list,
closed by appending the first point at the end. -/
noncomputable def evaluate_CNU_original_area (pts : List (ℝ × ℝ)) : ℝ :=
  match pts with
  | [] => 0
  | p0 :: _ => |0.5 * shoelaceSum (pts ++ [p0])|

/-- Stable insertion of a row into a list sorted by ascending `angle`. -/
noncomputable def insertByAngle (row : DFRow) : List DFRow → List DFRow
  | [] => [row]
  | s :: rest =>
      if (row.angle.getD 0) ≤ (s.angle.getD 0)
      then row :: s :: rest
      else s :: insertByAngle row rest

/-- `coord.sort_values(by='angle', inplace=True)`: stable ascending sort of
the dataframe rows by the `angle` column. -/
noncomputable def sortByAngle : List DFRow → List DFRow
  | [] => []
  | row :: rest => insertByAngle row (sortByAngle rest)

/-- `utils.shadowArea_sunArea_oringal_CNU`: the legacy method — project,
compute the centre of mass of the projected points, annotate every row with
its angle around it, sort the rows by that angle in place, then take the
shoelace area.  Returns the post-call state of the (mutated, reordered)
profile dataframe together with `[shadowArea, sunArea]`. -/
noncomputable def shadowArea_sunArea_oringal_CNU
    (input_df : List DFRow) (sunAzimuth sunElevation railAzimuth : ℝ) :
    Option (List DFRow × ℝ × ℝ) :=
  let eqAzimtuth := sunAzimuth - railAzimuth
  match projectRows eqAzimtuth sunElevation input_df with
  | none => none
  | some coord =>
      let x_cm := listMean (coord.map (fun row => row.xp.getD 0))
      let y_cm := listMean (coord.map (fun row => row.yp.getD 0))
      let withAngle := coord.map (fun row =>
        { row with angle := some (angleFn x_cm y_cm (row.xp.getD 0) (row.yp.getD 0)) })
      let sorted := sortByAngle withAngle
      let points := sorted.map (fun row => (row.xp.getD 0, row.yp.getD 0))
      let shadowArea := evaluate_CNU_original_area points
      some (sorted, shadowArea, shadowArea * Real.sin (radians sunElevation))

/-- The per-row `As` rule of `CNU.__calculate_As`: call the geometry engine
only when the sun altitude is strictly positive, otherwise assign 0. -/
noncomputable def calculate_As_row (hullArea : List (ℝ × ℝ) → ℝ)
    (profile : List DFRow) (sunAzimuth sunAltitude railAzimuth : ℝ) :
    Option ℝ :=
  if 0 < sunAltitude then
    match shadowArea_sunArea hullArea profile sunAzimuth sunAltitude railAzimuth with
    | none => none
    | some (_, _, sunArea) => some sunArea
  else some 0

end Geometry

/-! ## Theorems -/

/-- C1: for every timestep index `i ≥ 1` the residual whose root the solver
seeks is `Delta_time * (1/K) * (A - C - E) + Tr_simu[i-1] - T`, with
`A = solar_absort * As * SR`, `C = Hconv * Ac * (T - Tamb)`,
`E = Er * sigma * Ar * (T^4 - Tamb^4)` evaluated in Kelvin and
`K = density * Cr(T - 273.15) * volume` evaluating the specific-heat
function at the candidate temperature converted to Celsius. -/
theorem C1_residual_mixed_units (p : RailParams) (row : SolveRow)
    (prev Tr_i : ℚ) :
    find_Trail_i p row prev Tr_i =
      row.Delta_time * (1 / (p.pho * p.Crf (Tr_i - 273.15) * p.Vr)) *
          (p.solar_absort * row.As * row.SR
            - row.Hconv * p.Ac * (Tr_i - row.Tamb)
            - p.Er * sigmaSB * p.Ar * (Tr_i ^ 4 - row.Tamb ^ 4))
        + prev - Tr_i := by
  simp only [find_Trail_i, Af, Cf, Ef, Kf]
  ring

/-- C2 counterexample: on an instance whose current mode is
`FIXED_PER_RUN` with cached value 5, `set_mode(FIXED_GLOBAL)` freezes the
cached 5 — it does not draw the fresh value 7 offered by the random
stream, and the stream cursor does not advance. -/
theorem C2_counterexample :
    pv_set_mode (fun _ => (7 : ℚ)) (fun _ => true) PVMode.FIXED_GLOBAL
        PVMode.FIXED_PER_RUN 5 0 = some (PVState.const 5, 0)
    ∧ pv_set_mode (fun _ => (7 : ℚ)) (fun _ => true) PVMode.FIXED_GLOBAL
        PVMode.FIXED_PER_RUN 5 0 ≠ some (PVState.const 7, 1) := by
  exact ⟨rfl, by decide⟩

/-- C2 (amended): `set_mode(FIXED_GLOBAL)` freezes the value `get_value()`
returns under the instance's current mode — a fresh validated draw when the
mode is `VARIABLE`, the cached value otherwise — and converts the instance
in place into a constant; afterwards every `get_value()` returns that value
forever and the Monte Carlo guarded reinitialization never changes it. -/
theorem C2_fixed_global_freezes (gen : ℕ → ℚ) (valid : ℚ → Bool)
    (mode : PVMode) (iv : ℚ) (r : ℕ) :
    (mode = PVMode.VARIABLE → valid (gen r) = true →
      pv_set_mode gen valid PVMode.FIXED_GLOBAL mode iv r
        = some (PVState.const (gen r), r + 1))
    ∧ (mode ≠ PVMode.VARIABLE →
      pv_set_mode gen valid PVMode.FIXED_GLOBAL mode iv r
        = some (PVState.const iv, r))
    ∧ (∀ (v : ℚ) (s : ℕ),
      pv_get_value gen valid (PVState.const v) s = some (v, PVState.const v, s))
    ∧ (∀ (v : ℚ) (s : ℕ),
      pv_reinit_if_random gen valid (PVState.const v) s
        = some (PVState.const v, s)) := by
  refine ⟨?_, ?_, ?_, ?_⟩
  · intro hm hv
    subst hm
    simp [pv_set_mode, pv_get_value, hv]
  · intro hm
    simp [pv_set_mode, pv_get_value, hm]
  · intro v s
    rfl
  · intro v s
    rfl

/-- C2 witness: the amended behaviour at concrete inputs — a `VARIABLE`
instance freezes the fresh draw 7, a `FIXED_PER_RUN` instance freezes its
cached 5, and the resulting constant is inert under reads and guarded
reinitialization. -/
theorem C2_fixed_global_freezes_witness :
    pv_set_mode (fun _ => (7 : ℚ)) (fun _ => true) PVMode.FIXED_GLOBAL
        PVMode.VARIABLE 5 0 = some (PVState.const 7, 1)
    ∧ pv_set_mode (fun _ => (7 : ℚ)) (fun _ => true) PVMode.FIXED_GLOBAL
        PVMode.FIXED_PER_RUN 5 0 = some (PVState.const 5, 0)
    ∧ pv_get_value (fun _ => (7 : ℚ)) (fun _ => true) (PVState.const 3) 4
        = some (3, PVState.const 3, 4)
    ∧ pv_reinit_if_random (fun _ => (7 : ℚ)) (fun _ => true) (PVState.const 3) 4
        = some (PVState.const 3, 4) := by
  have h1 := C2_fixed_global_freezes (fun _ => (7 : ℚ)) (fun _ => true)
    PVMode.VARIABLE 5 0
  have h2 := C2_fixed_global_freezes (fun _ => (7 : ℚ)) (fun _ => true)
    PVMode.FIXED_PER_RUN 5 0
  exact ⟨h1.1 rfl rfl, h2.2.1 (by decide), h1.2.2.1 3 4, h1.2.2.2 3 4⟩

/-- C3: a `FIXED_PER_RUN` instance returns its cached value unchanged on
every read; `reinit()` draws and validates a new frozen value exactly when
the mode is `FIXED_PER_RUN` and leaves all state unchanged under any other
mode; a `VARIABLE` instance draws and validates a fresh value on every
read. -/
theorem C3_resampling_mode_semantics (gen : ℕ → ℚ) (valid : ℚ → Bool)
    (iv : ℚ) (r : ℕ) :
    (pv_get_value gen valid (PVState.random PVMode.FIXED_PER_RUN iv) r
        = some (iv, PVState.random PVMode.FIXED_PER_RUN iv, r))
    ∧ (valid (gen r) = true →
        pv_reinit gen valid PVMode.FIXED_PER_RUN iv r
          = some (PVState.random PVMode.FIXED_PER_RUN (gen r), r + 1))
    ∧ (valid (gen r) = false →
        pv_reinit gen valid PVMode.FIXED_PER_RUN iv r = none)
    ∧ (∀ m : PVMode, m ≠ PVMode.FIXED_PER_RUN →
        pv_reinit gen valid m iv r = some (PVState.random m iv, r))
    ∧ (valid (gen r) = true →
        pv_get_value gen valid (PVState.random PVMode.VARIABLE iv) r
          = some (gen r, PVState.random PVMode.VARIABLE iv, r + 1))
    ∧ (valid (gen r) = false →
        pv_get_value gen valid (PVState.random PVMode.VARIABLE iv) r
          = none) := by
  refine ⟨?_, ?_, ?_, ?_, ?_, ?_⟩
  · simp [pv_get_value]
  · intro hv
    simp [pv_reinit, hv]
  · intro hv
    simp [pv_reinit, hv]
  · intro m hm
    simp [pv_reinit, hm]
  · intro hv
    simp [pv_get_value, hv]
  · intro hv
    simp [pv_get_value, hv]

/-- C3 witness: the mode semantics at concrete inputs (draws worth 9,
always-valid validation, cached value 2, cursor 0). -/
theorem C3_resampling_mode_semantics_witness :
    (pv_get_value (fun _ => (9 : ℚ)) (fun _ => true)
        (PVState.random PVMode.FIXED_PER_RUN 2) 0
      = some (2, PVState.random PVMode.FIXED_PER_RUN 2, 0))
    ∧ (pv_reinit (fun _ => (9 : ℚ)) (fun _ => true) PVMode.FIXED_PER_RUN 2 0
      = some (PVState.random PVMode.FIXED_PER_RUN 9, 1))
    ∧ (pv_reinit (fun _ => (9 : ℚ)) (fun _ => true) PVMode.VARIABLE 2 0
      = some (PVState.random PVMode.VARIABLE 2, 0))
    ∧ (pv_get_value (fun _ => (9 : ℚ)) (fun _ => true)
        (PVState.random PVMode.VARIABLE 2) 0
      = some (9, PVState.random PVMode.VARIABLE 2, 1)) := by
  have h := C3_resampling_mode_semantics (fun _ => (9 : ℚ)) (fun _ => true) 2 0
  exact ⟨h.1, h.2.1 rfl, h.2.2.2.1 PVMode.VARIABLE (by decide), h.2.2.2.2.1 rfl⟩

/-- C4: when the root-find does not converge at index `i` the solve loop
raises an error carrying that index at once (no retry with different
seeds), and `SimuRun.run` marks the run `FAILED`, records `end_time`, and
re-raises the error instead of swallowing it. -/
theorem C4_nonconvergence_fails_run (root : (ℚ → ℚ) → Option ℚ)
    (ps : ℕ → RailParams) (row : SolveRow) (rest : List SolveRow)
    (prev : ℚ) (i : ℕ)
    (h : root (find_Trail_i (ps i) row prev) = none) :
    solveFrom root ps (row :: rest) prev i = Except.error i
    ∧ (simuRun_run (solveFrom root ps (row :: rest) prev i)).status
        = SimuRunStatus.FAILED
    ∧ (simuRun_run (solveFrom root ps (row :: rest) prev i)).endTimeSet = true
    ∧ (simuRun_run (solveFrom root ps (row :: rest) prev i)).propagated
        = Except.error i := by
  have hs : solveFrom root ps (row :: rest) prev i = Except.error i := by
    simp [solveFrom, h]
  refine ⟨hs, ?_, ?_, ?_⟩ <;> rw [hs] <;> rfl

/-- C4 witness: with a root oracle that never converges, the one-row solve
at index 1 fails with error index 1, and the surrounding run is `FAILED`
with `end_time` recorded and the error propagated. -/
theorem C4_nonconvergence_fails_run_witness :
    solveFrom (fun _ => none)
        (fun _ => { solar_absort := 1, Ac := 1, Ar := 1, Er := 1, pho := 1,
                    Crf := Cr, Vr := 1 })
        [{ Delta_time := 60, As := 1, SR := 0, Hconv := 1, Tamb := 290 }]
        290 1 = Except.error 1
    ∧ (simuRun_run (solveFrom (fun _ => none)
        (fun _ => { solar_absort := 1, Ac := 1, Ar := 1, Er := 1, pho := 1,
                    Crf := Cr, Vr := 1 })
        [{ Delta_time := 60, As := 1, SR := 0, Hconv := 1, Tamb := 290 }]
        290 1)).status = SimuRunStatus.FAILED := by
  have h := C4_nonconvergence_fails_run (fun _ => none)
    (fun _ => { solar_absort := 1, Ac := 1, Ar := 1, Er := 1, pho := 1,
                Crf := Cr, Vr := 1 })
    { Delta_time := 60, As := 1, SR := 0, Hconv := 1, Tamb := 290 }
    [] 290 1 rfl
  exact ⟨h.1, h.2.1⟩

/-- Auxiliary: the tail of the delta-time column has the input's length. -/
theorem delta_time_aux_length (prev : ℤ) (l : List ℤ) :
    (delta_time_aux prev l).length = l.length := by
  induction l generalizing prev with
  | nil => rfl
  | cons t rest ih => simp [delta_time_aux, ih]

/-- Auxiliary: pointwise description of the delta-time tail. -/
theorem delta_time_aux_get (prev : ℤ) (l : List ℤ) (i : ℕ)
    (hi : i < l.length) :
    (delta_time_aux prev l)[i]? =
      some ((l.getD i 0 - (prev :: l).getD i 0) % 86400) := by
  induction l generalizing prev i with
  | nil => simp at hi
  | cons t rest ih =>
      cases i with
      | zero => simp [delta_time_aux]
      | succ j =>
          have hj : j < rest.length := by simpa using hi
          simpa [delta_time_aux] using ih t j hj

/-- C8 counterexample: for timestamps 0 s and 90000 s (a 25-hour gap) the
computed `Delta_time[1]` is 3600 — the timedelta's seconds *component* —
and not the elapsed 90000 seconds the claim asserts. -/
theorem C8_counterexample :
    create_delta_time [0, 90000] = [0, 3600]
    ∧ (90000 : ℤ) - 0 ≠ 3600 := by
  exact ⟨by decide, by decide⟩

/-- C8 (amended): `Delta_time[0] = 0` and for `i ≥ 1` the entry is the
elapsed seconds between rows `i-1` and `i` reduced modulo 86400 (the
Python `timedelta.seconds` component); the irregular-spacing warning fires
exactly when the column has more than two distinct values and never
changes the computed run trace (the simulation continues). -/
theorem C8_delta_time_column (t0 : ℤ) (rest : List ℤ) :
    (create_delta_time (t0 :: rest)).head? = some 0
    ∧ (create_delta_time (t0 :: rest)).length = (t0 :: rest).length
    ∧ (∀ i : ℕ, i < rest.length →
        (create_delta_time (t0 :: rest))[i + 1]? =
          some (((t0 :: rest).getD (i + 1) 0 - (t0 :: rest).getD i 0) % 86400))
    ∧ ((create_delta_time_columns (t0 :: rest)).warned = true
        ↔ 2 < distinct_count (create_delta_time (t0 :: rest)))
    ∧ (∀ (root : (ℚ → ℚ) → Option ℚ) (ps : ℕ → RailParams) (w : List WRow)
        (hconvCol asCol : List ℚ) (Ti : ℚ),
        (cnu_run root ps w hconvCol asCol Ti).trace
          = cnu_trace root ps w hconvCol asCol Ti) := by
  refine ⟨rfl, ?_, ?_, ?_, ?_⟩
  · simp [create_delta_time, delta_time_aux_length]
  · intro i hi
    have h := delta_time_aux_get t0 rest i hi
    simpa [create_delta_time] using h
  · simp [create_delta_time_columns]
  · intro root ps w hconvCol asCol Ti
    rfl

/-- C8 witness: the amended description evaluated on the concrete
timestamp list `[0, 3600, 90000]` at index 1. -/
theorem C8_delta_time_column_witness :
    (create_delta_time [(0 : ℤ), 3600, 90000]).head? = some 0
    ∧ (create_delta_time [(0 : ℤ), 3600, 90000])[0 + 1]? =
        some ((([(0 : ℤ), 3600, 90000]).getD (0 + 1) 0
          - ([(0 : ℤ), 3600, 90000]).getD 0 0) % 86400) := by
  have h := C8_delta_time_column 0 [3600, 90000]
  exact ⟨h.1, h.2.2.1 0 (by decide)⟩

/-- C9: on a completed run the first entry of the final Celsius trace is
the initial rail temperature — the `Trail_initial` argument, or the weather
series' first ambient temperature when `SimuRun.run` gets none — within
1e-5 (here exactly, since `(Ti + 273.15) - 273.15 = Ti`). -/
theorem C9_initial_condition_propagated (root : (ℚ → ℚ) → Option ℚ)
    (ps : ℕ → RailParams) (w : List WRow) (hconvCol asCol : List ℚ)
    (TrailArg : Option ℚ) (TambFirst : ℚ) (l : List ℚ)
    (h : cnu_trace root ps w hconvCol asCol (simuRun_initial TrailArg TambFirst)
        = Except.ok l) :
    l.head? = some (simuRun_initial TrailArg TambFirst)
    ∧ (∀ x : ℚ, l.head? = some x →
        |x - simuRun_initial TrailArg TambFirst| ≤ 1e-5)
    ∧ simuRun_initial none TambFirst = TambFirst
    ∧ (∀ q : ℚ, simuRun_initial (some q) TambFirst = q) := by
  have hh : l.head? = some (simuRun_initial TrailArg TambFirst) := by
    simp only [cnu_trace] at h
    cases hs : solveFrom root ps
        (buildRows w.tail hconvCol asCol
          (create_delta_time (w.map (fun row => row.t))).tail)
        (simuRun_initial TrailArg TambFirst + 273.15) 1 with
    | ok tail =>
        rw [hs] at h
        have hl : ((simuRun_initial TrailArg TambFirst + 273.15) :: tail).map
            (fun T => T - 273.15) = l := by
          exact Except.ok.inj h
        rw [← hl]
        simp
    | error e =>
        rw [hs] at h
        cases h
  refine ⟨hh, ?_, rfl, fun q => rfl⟩
  intro x hx
  rw [hh] at hx
  have hxe : x = simuRun_initial TrailArg TambFirst := (Option.some.inj hx).symm
  rw [hxe]
  simp
  norm_num

/-- C9 witness: a two-row weather series, `Trail_initial = 25 °C`, a root
oracle that always returns 300 K; the finished Celsius trace starts at
exactly 25. -/
theorem C9_initial_condition_propagated_witness :
    ([(25 : ℚ), 26.85]).head? = some (simuRun_initial (some 25) 20)
    ∧ |(25 : ℚ) - simuRun_initial (some 25) 20| ≤ 1e-5 := by
  have h := C9_initial_condition_propagated (fun _ => some 300)
    (fun _ => { solar_absort := 1, Ac := 1, Ar := 1, Er := 1, pho := 1,
                Crf := Cr, Vr := 1 })
    [{ t := 0, SR := 0, Tamb := 20, Wv := 0 },
     { t := 3600, SR := 0, Tamb := 21, Wv := 0 }]
    [1] [0] (some 25) 20 [25, 26.85] (by norm_num [cnu_trace, create_delta_time,
      delta_time_aux, buildRows, solveFrom, simuRun_initial])
  exact ⟨h.1, h.2.1 25 rfl⟩

/-- C10: a `Rail` has no independent volume input — `_volume` is built from
the `cross_area` argument, so for a constant cross-section `c` both
property reads return `c` (raising `ValueError` when the value is not
strictly positive), and the parameter record that `CNU.__solve` builds for
the thermal-mass term carries exactly that value as `Vr`. -/
theorem C10_volume_backed_by_cross_area (gen : ℕ → ℚ) (valid : ℚ → Bool)
    (az la lo el c cva ra ae den sab emi : ℚ) (r : ℕ) (Crf : ℚ → ℚ)
    (rp : RailPV)
    (hrp : rp = rail_init az la lo el c cva ra ae
      { density := PVState.const den, solar_absort := PVState.const sab,
        emissivity := PVState.const emi }) :
    rp.volume = rp.cross_area
    ∧ rp.volume = PVState.const c
    ∧ (0 < c →
        rail_cross_area gen valid rp r = some (c, r)
        ∧ rail_volume gen valid rp r = some (c, r))
    ∧ (c ≤ 0 →
        rail_cross_area gen valid rp r = none
        ∧ rail_volume gen valid rp r = none)
    ∧ (0 < sab → sab ≤ 1 → 0 < cva → 0 < ra → 0 < emi → emi ≤ 1 →
       0 ≤ ae → ae ≤ 1 → 0 < den → 0 < c →
        cnu_read_params gen valid rp Crf r
          = some ({ solar_absort := sab, Ac := cva, Ar := ra,
                    Er := emi * ae, pho := den, Crf := Crf, Vr := c }, r)) := by
  subst hrp
  refine ⟨rfl, rfl, ?_, ?_, ?_⟩
  · intro hc
    constructor <;>
      simp [rail_cross_area, rail_volume, prop_read, pv_get_value,
        rail_init, parameter_value_factory, hc]
  · intro hc
    have hc2 : ¬ (0 < c) := not_lt.mpr hc
    constructor <;>
      simp [rail_cross_area, rail_volume, prop_read, pv_get_value,
        rail_init, parameter_value_factory, hc2]
  · intro h1 h2 h3 h4 h5 h6 h7 h8 h9 h10
    simp [cnu_read_params, material_solar_absort, rail_convection_area,
      rail_radiation_area, material_emissivity, rail_ambient_emissivity,
      material_density, rail_volume, prop_read, pv_get_value, rail_init,
      parameter_value_factory, h1, h2, h3, h4, h5, h6, h7, h8, h9, h10]

/-- C10 witness: a rail built with constant cross-section 3 m²; both
property reads return 3 and the solver's parameter record has `Vr = 3`. -/
theorem C10_volume_backed_by_cross_area_witness :
    rail_cross_area (fun _ => 0) (fun _ => true)
        (rail_init 90 0 0 0 3 1 1 (1/2)
          { density := PVState.const 7850, solar_absort := PVState.const (4/5),
            emissivity := PVState.const (7/10) }) 0 = some (3, 0)
    ∧ rail_volume (fun _ => 0) (fun _ => true)
        (rail_init 90 0 0 0 3 1 1 (1/2)
          { density := PVState.const 7850, solar_absort := PVState.const (4/5),
            emissivity := PVState.const (7/10) }) 0 = some (3, 0)
    ∧ cnu_read_params (fun _ => 0) (fun _ => true)
        (rail_init 90 0 0 0 3 1 1 (1/2)
          { density := PVState.const 7850, solar_absort := PVState.const (4/5),
            emissivity := PVState.const (7/10) }) Cr 0
      = some ({ solar_absort := 4/5, Ac := 1, Ar := 1, Er := (7/10) * (1/2),
                pho := 7850, Crf := Cr, Vr := 3 }, 0) := by
  have h := C10_volume_backed_by_cross_area (fun _ => 0) (fun _ => true)
    90 0 0 0 3 1 1 (1/2) 7850 (4/5) (7/10) 0 Cr
    (rail_init 90 0 0 0 3 1 1 (1/2)
      { density := PVState.const 7850, solar_absort := PVState.const (4/5),
        emissivity := PVState.const (7/10) }) rfl
  refine ⟨(h.2.2.1 (by norm_num)).1, (h.2.2.1 (by norm_num)).2, ?_⟩
  exact h.2.2.2.2 (by norm_num) (by norm_num) (by norm_num) (by norm_num)
    (by norm_num) (by norm_num) (by norm_num) (by norm_num) (by norm_num)
    (by norm_num)

/-- Auxiliary: every pair yielded by the inner variation loop carries the
given weather source and a rail freshly prepared (deep copy + rail and
material reinitialization) from the template, and the loop yields exactly
`V` pairs. -/
theorem mc_variations_spec {W : Type} (gen : ℕ → ℚ) (valid : ℚ → Bool)
    (tmpl : RailPV) (w : W) (V : ℕ) :
    ∀ (r : ℕ) (out : List (W × RailPV)) (rEnd : ℕ),
      mc_variations gen valid tmpl w V r = some (out, rEnd) →
      out.length = V
      ∧ ∀ p ∈ out, p.1 = w
          ∧ ∃ ra rb, mc_prepare_rail gen valid tmpl ra = some (p.2, rb) := by
  induction V with
  | zero =>
      intro r out rEnd h
      simp [mc_variations] at h
      obtain ⟨rfl, rfl⟩ := h
      simp
  | succ v ih =>
      intro r out rEnd h
      unfold mc_variations at h
      cases hp : mc_prepare_rail gen valid tmpl r with
      | none => simp [hp] at h
      | some pr =>
          obtain ⟨rc, r1⟩ := pr
          cases hv : mc_variations gen valid tmpl w v r1 with
          | none => simp [hp, hv] at h
          | some pr2 =>
              obtain ⟨rest, r2⟩ := pr2
              simp [hp, hv] at h
              obtain ⟨h1, h2⟩ := h
              subst h1
              subst h2
              have hrec := ih r1 rest r2 hv
              refine ⟨by simp [hrec.1], ?_⟩
              intro p hmem
              rcases List.mem_cons.mp hmem with hhd | htl
              · subst hhd
                exact ⟨rfl, r, r1, hp⟩
              · exact hrec.2 p htl

/-- C5: `generate_simulation_objects` yields exactly `|sources| * V` runs,
and every yielded run pairs one of the weather sources with a rail obtained
by applying the deep-copy-then-reinitialize preparation (rail
`reinit_parametervalues` followed by material `reinit_parametervalues`) to
the rail template before the run object is constructed.  Runs are values
derived from the template alone, so no parameter state is shared. -/
theorem C5_generate_simulation_objects {W : Type} (gen : ℕ → ℚ)
    (valid : ℚ → Bool) (tmpl : RailPV) (V : ℕ) (ws : List W)
    (r rEnd : ℕ) (out : List (W × RailPV))
    (h : generate_simulation_objects gen valid tmpl V ws r = some (out, rEnd)) :
    out.length = ws.length * V
    ∧ ∀ p ∈ out, p.1 ∈ ws
        ∧ ∃ ra rb, mc_prepare_rail gen valid tmpl ra = some (p.2, rb) := by
  induction ws generalizing r rEnd out with
  | nil =>
      simp [generate_simulation_objects] at h
      obtain ⟨rfl, rfl⟩ := h
      simp
  | cons w ws ih =>
      unfold generate_simulation_objects at h
      cases hv : mc_variations gen valid tmpl w V r with
      | none => simp [hv] at h
      | some pr =>
          obtain ⟨first, r1⟩ := pr
          cases hg : generate_simulation_objects gen valid tmpl V ws r1 with
          | none => simp [hv, hg] at h
          | some pr2 =>
              obtain ⟨restOut, r2⟩ := pr2
              simp [hv, hg] at h
              obtain ⟨h1, h2⟩ := h
              subst h1
              subst h2
              have hm := mc_variations_spec gen valid tmpl w V r first r1 hv
              have hr := ih r1 r2 restOut hg
              constructor
              · have e1 := hm.1
                have e2 := hr.1
                simp [List.length_append, e1, e2, Nat.succ_mul]
                omega
              · intro p hmem
                rcases List.mem_append.mp hmem with hfst | hrst
                · obtain ⟨hw, hex⟩ := hm.2 p hfst
                  exact ⟨by simp [hw], hex⟩
                · obtain ⟨hw, hex⟩ := hr.2 p hrst
                  exact ⟨List.mem_cons_of_mem w hw, hex⟩

/-- An all-constant demonstration rail template for the Monte Carlo
witness. -/
def mcDemoRail : RailPV :=
  { azimuth := PVState.const 90, lat := PVState.const 0,
    long := PVState.const 0, elev := PVState.const 0,
    cross_area := PVState.const 3, convection_area := PVState.const 1,
    radiation_area := PVState.const 1, ambient_emissivity := PVState.const 1,
    volume := PVState.const 3,
    material := { density := PVState.const 7850,
                  solar_absort := PVState.const 1,
                  emissivity := PVState.const 1 } }

/-- The runs generated from `mcDemoRail` over two weather sources with two
variations each. -/
def mcDemoOut : List (ℕ × RailPV) :=
  [(10, mcDemoRail), (10, mcDemoRail), (20, mcDemoRail), (20, mcDemoRail)]

/-- C5 witness: a campaign over two weather sources with `V = 2` yields the
four expected runs and the size law `|S| * V` holds on it. -/
theorem C5_generate_simulation_objects_witness :
    generate_simulation_objects (fun _ => (0 : ℚ)) (fun _ => true) mcDemoRail
        2 [(10 : ℕ), 20] 0 = some (mcDemoOut, 0)
    ∧ mcDemoOut.length = ([(10 : ℕ), 20]).length * 2 := by
  refine ⟨rfl, ?_⟩
  exact (C5_generate_simulation_objects (fun _ => (0 : ℚ)) (fun _ => true)
    mcDemoRail 2 [(10 : ℕ), 20] 0 0 mcDemoOut rfl).1

/-- Auxiliary: `radians 0 = 0`. -/
theorem radians_zero_eq : radians 0 = 0 := by
  simp [radians]

/-- Auxiliary: the projection divisor vanishes at elevation 0. -/
theorem tan_radians_zero : Real.tan (radians 0) = 0 := by
  rw [radians_zero_eq, Real.tan_zero]

/-- Auxiliary: `radians 45 = π/4`. -/
theorem radians_45_eq : radians 45 = Real.pi / 4 := by
  unfold radians
  ring

/-- Auxiliary: the projection divisor at 45° elevation is 1. -/
theorem tan_radians_45 : Real.tan (radians 45) = 1 := by
  rw [radians_45_eq, Real.tan_pi_div_four]

/-- Auxiliary: the projection divisor at 45° elevation is nonzero. -/
theorem tan_radians_45_ne : Real.tan (radians 45) ≠ 0 := by
  rw [tan_radians_45]
  norm_num

/-- C6 counterexample: at sun elevation exactly 0 the projection fails —
`project_point` attempts the division `sin(azi)/tan(elev)` whose divisor
`tan(radians 0)` is exactly 0 (Python: `ZeroDivisionError`); there is no
guard or special case in the component. -/
theorem C6_counterexample :
    project_point 1 1 1 45 0 = none ∧ Real.tan (radians 0) = 0 := by
  refine ⟨?_, tan_radians_zero⟩
  simp [project_point, tan_radians_zero]

/-- C6 (amended): the shadow/sun-area component does *not* guard against
elevation 0: `project_point` fails with a division by zero there for every
point and `shadowArea_sunArea` fails on every nonempty profile;
the only protection is the caller's rule assigning `As = 0` whenever the
sun altitude is not strictly positive. -/
theorem C6_no_elevation_zero_guard (x y z azi sunAz railAz alt : ℝ)
    (hullArea : List (ℝ × ℝ) → ℝ) (profile : List DFRow) :
    project_point x y z azi 0 = none
    ∧ (profile ≠ [] → shadowArea_sunArea hullArea profile sunAz 0 railAz = none)
    ∧ (alt ≤ 0 → calculate_As_row hullArea profile sunAz alt railAz = some 0) := by
  refine ⟨?_, ?_, ?_⟩
  · simp [project_point, tan_radians_zero]
  · intro hp
    cases profile with
    | nil => exact absurd rfl hp
    | cons row rest =>
        simp [shadowArea_sunArea, projectRows, project_point, tan_radians_zero]
  · intro ha
    simp [calculate_As_row, not_lt.mpr ha]

/-- C6 witness: the division-by-zero failure and the caller guard at
concrete inputs. -/
theorem C6_no_elevation_zero_guard_witness :
    project_point 2 3 4 45 0 = none
    ∧ shadowArea_sunArea (fun _ => 0) [mkProfileRow 0 0 0] 10 0 0 = none
    ∧ calculate_As_row (fun _ => 0) [mkProfileRow 0 0 0] 10 (-1) 0 = some 0 := by
  have h := C6_no_elevation_zero_guard 2 3 4 45 10 0 (-1) (fun _ => 0)
    [mkProfileRow 0 0 0]
  exact ⟨h.1, h.2.1 (by simp), h.2.2 (by norm_num)⟩

/-- C7 counterexample: the convex-hull geometry call mutates the loaded
profile — after one call at azimuth 45°, elevation 45° the single profile
row has gained an `xp` column entry, so the point table is not the same as
before the call (where `xp` was absent). -/
theorem C7_counterexample :
    (shadowArea_sunArea (fun _ => 0) [mkProfileRow 0 0 1] 45 45 0).map
        (fun o => o.1.map (fun row => row.xp))
      ≠ some [(none : Option ℝ)] := by
  intro hcontra
  simp [shadowArea_sunArea, projectRows, project_point, mkProfileRow,
    tan_radians_45_ne] at hcontra

/-- Auxiliary: projection annotates rows in place but keeps each row's
`X`, `Y`, `Z` values and the row order. -/
theorem projectRows_preserves_xyz (azi elev : ℝ) (df out : List DFRow)
    (h : projectRows azi elev df = some out) :
    out.map (fun row => (row.X, row.Y, row.Z))
      = df.map (fun row => (row.X, row.Y, row.Z)) := by
  induction df generalizing out with
  | nil =>
      simp [projectRows] at h
      subst h
      rfl
  | cons row rest ih =>
      unfold projectRows at h
      cases hp : project_point row.X row.Y row.Z azi elev with
      | none => simp [hp] at h
      | some pxy =>
          obtain ⟨px, py⟩ := pxy
          cases hr : projectRows azi elev rest with
          | none => simp [hp, hr] at h
          | some rest1 =>
              simp [hp, hr] at h
              subst h
              simp [ih rest1 hr]

/-- Auxiliary: inserting a row by angle permutes consing it. -/
theorem insertByAngle_perm (row : DFRow) (l : List DFRow) :
    List.Perm (insertByAngle row l) (row :: l) := by
  induction l with
  | nil => simp [insertByAngle]
  | cons s rest ih =>
      unfold insertByAngle
      by_cases hc : (row.angle.getD 0) ≤ (s.angle.getD 0)
      · simp [hc]
      · simp only [hc, if_false]
        exact (ih.cons s).trans (List.Perm.swap row s rest)

/-- Auxiliary: the angular sort is a permutation of its input. -/
theorem sortByAngle_perm (l : List DFRow) :
    List.Perm (sortByAngle l) l := by
  induction l with
  | nil => simp [sortByAngle]
  | cons row rest ih =>
      unfold sortByAngle
      exact (insertByAngle_perm row (sortByAngle rest)).trans (ih.cons row)

/-- Auxiliary: annotating the `angle` column does not change the `X`, `Y`,
`Z` columns. -/
theorem map_xyz_of_annotate (coord : List DFRow) (g : DFRow → Option ℝ) :
    (coord.map (fun row => { row with angle := g row })).map
        (fun row => (row.X, row.Y, row.Z))
      = coord.map (fun row => (row.X, row.Y, row.Z)) := by
  induction coord with
  | nil => rfl
  | cons row rest ih => simp [ih]

/-- C7 (amended): neither geometry method leaves the loaded profile
untouched — both write projected-coordinate columns into it in place, and
the legacy method also reorders the rows — but the loaded `X`, `Y`, `Z`
data survive: the convex-hull method preserves every row's `X`, `Y`, `Z`
values in their original order, and the legacy method preserves them up to
the angular reordering (a permutation). -/
theorem C7_profile_mutation (hullArea : List (ℝ × ℝ) → ℝ) (df : List DFRow)
    (az el ra : ℝ) (out1 out2 : List DFRow × ℝ × ℝ)
    (h1 : shadowArea_sunArea hullArea df az el ra = some out1)
    (h2 : shadowArea_sunArea_oringal_CNU df az el ra = some out2) :
    out1.1.map (fun row => (row.X, row.Y, row.Z))
      = df.map (fun row => (row.X, row.Y, row.Z))
    ∧ List.Perm (out2.1.map (fun row => (row.X, row.Y, row.Z)))
        (df.map (fun row => (row.X, row.Y, row.Z))) := by
  constructor
  · unfold shadowArea_sunArea at h1
    cases hp : projectRows (az - ra) el df with
    | none => simp [hp] at h1
    | some coord =>
        simp [hp] at h1
        subst h1
        simpa using projectRows_preserves_xyz (az - ra) el df coord hp
  · unfold shadowArea_sunArea_oringal_CNU at h2
    cases hp : projectRows (az - ra) el df with
    | none => simp [hp] at h2
    | some coord =>
        simp only [hp] at h2
        have h3 := Option.some.inj h2
        subst h3
        have hperm := sortByAngle_perm (coord.map (fun row =>
          { row with angle := some (angleFn
              (listMean (coord.map (fun s => s.xp.getD 0)))
              (listMean (coord.map (fun s => s.yp.getD 0)))
              (row.xp.getD 0) (row.yp.getD 0)) }))
        have hmap := hperm.map (fun row => (row.X, row.Y, row.Z))
        rw [map_xyz_of_annotate] at hmap
        rw [projectRows_preserves_xyz (az - ra) el df coord hp] at hmap
        simpa using hmap

/-- C7 witness: one call of each method on the one-point profile
`(0,0,0)` at azimuth 45°, elevation 45°; the hull method keeps the row's
`X`, `Y`, `Z` in place and the legacy method keeps them up to
permutation (while both have added projection columns). -/
theorem C7_profile_mutation_witness :
    ([({ X := 0, Y := 0, Z := 0, xp := some 0, yp := some 0, angle := none } : DFRow)]).map (fun row => (row.X, row.Y, row.Z))
      = ([mkProfileRow 0 0 0]).map (fun row => (row.X, row.Y, row.Z))
    ∧ List.Perm
        (([({ X := 0, Y := 0, Z := 0, xp := some 0, yp := some 0, angle := some 0 } : DFRow)]).map (fun row => (row.X, row.Y, row.Z)))
        (([mkProfileRow 0 0 0]).map (fun row => (row.X, row.Y, row.Z))) := by
  exact C7_profile_mutation (fun _ => 0) [mkProfileRow 0 0 0] 45 45 0
    ([{ X := 0, Y := 0, Z := 0, xp := some 0, yp := some 0, angle := none }], 0, 0)
    ([{ X := 0, Y := 0, Z := 0, xp := some 0, yp := some 0, angle := some 0 }], 0, 0)
    (by simp [shadowArea_sunArea, projectRows, project_point, mkProfileRow,
        tan_radians_45_ne])
    (by simp [shadowArea_sunArea_oringal_CNU, projectRows, project_point,
        mkProfileRow, tan_radians_45_ne, listMean, angleFn, atan2,
        sortByAngle, insertByAngle, evaluate_CNU_original_area, shoelaceSum])
